import Mathlib

set_option maxRecDepth 4000

/-!
Verification development for the claim-validation pipeline of the
OBSERVATORIO ETS repository (`validation.py`, plus the single-claim
validation path of `dashboard.py`).

Modelling conventions:
* Python strings are Lean `String`s; the Python string operations used by
  the source (`in`, `split`, `strip`, `replace`, `isdigit`, `upper`, `len`)
  are given executable structural-recursive models on `List Char` below, so
  that every definition evaluates inside the kernel.
* Python floats are modelled as exact rationals (`ℚ`); the arithmetic the
  source performs on confidences and weights only involves small decimal
  literals, for which the rational model is the intended reading.
* Fallible collaborators (the SQL executor, the text-completion call, the
  persistence store) are modelled as `Except String` values passed in as
  arguments: `.error e` models the call raising an exception with message
  `e`.  A Python function that catches all exceptions becomes a total Lean
  function on those arguments.
* SQL fragments in the source are single-quoted; inside Lean string
  literals the quote character is written with the escape `\x27`.
-/

/-! ## Python string primitives (structural models) -/

/-- `leadsWith pat s` is true when the character list `pat` starts the list
`s` (models a pattern match anchored at the current position). -/
def leadsWith : List Char → List Char → Bool
  | [], _ => true
  | _ :: _, [] => false
  | p :: ps, c :: cs => p == c && leadsWith ps cs

/-- `containsSeq pat s` is true when `pat` occurs contiguously somewhere in
`s` (models Python `pat in s`). -/
def containsSeq (pat : List Char) : List Char → Bool
  | [] => leadsWith pat []
  | c :: rest => leadsWith pat (c :: rest) || containsSeq pat rest

/-- Python `pat in s` on strings. -/
def strHasSub (s pat : String) : Bool := containsSeq pat.data s.data

/-- Strip leading whitespace (model of one side of Python `str.strip`). -/
def stripLeadingWs (l : List Char) : List Char := l.dropWhile Char.isWhitespace

/-- Model of Python `str.strip()` (whitespace on both ends). -/
def pyStrip (s : String) : String :=
  ⟨(stripLeadingWs ((stripLeadingWs s.data.reverse).reverse))⟩

/-- Model of Python `str.isdigit()` restricted to ASCII digits: true iff the
string is nonempty and every character is a digit. -/
def pyIsDigits (s : String) : Bool := !s.data.isEmpty && s.data.all Char.isDigit

/-- Model of Python `str.upper()` (basic-latin case mapping). -/
def pyUpper (s : String) : String := ⟨s.data.map Char.toUpper⟩

/-- Splitter for the separator `"->"`: models Python `s.split('->')`
(leftmost, non-overlapping occurrences). -/
def splitArrowAux : List Char → List Char → List (List Char)
  | acc, [] => [acc.reverse]
  | acc, '-' :: '>' :: rest => acc.reverse :: splitArrowAux [] rest
  | acc, c :: rest => splitArrowAux (c :: acc) rest

/-- Python `s.split('->')`. -/
def pySplitArrow (s : String) : List String :=
  (splitArrowAux [] s.data).map fun l => ⟨l⟩

/-- Splitter for the separator `"-"`: models Python `s.split('-')`. -/
def splitDashAux : List Char → List Char → List (List Char)
  | acc, [] => [acc.reverse]
  | acc, '-' :: rest => acc.reverse :: splitDashAux [] rest
  | acc, c :: rest => splitDashAux (c :: acc) rest

/-- Python `s.split('-')`. -/
def pySplitDash (s : String) : List String :=
  (splitDashAux [] s.data).map fun l => ⟨l⟩

/-- Model of Python `s.replace('-', '')` (remove every dash). -/
def removeDashes (s : String) : String := ⟨s.data.filter (· != '-')⟩

/-- Model of Python `s.replace('e.', 'e1.')`, used by the transit-time query
template on the vessel and period filter fragments. -/
def replaceEDotAux : List Char → List Char
  | [] => []
  | 'e' :: '.' :: rest => 'e' :: '1' :: '.' :: replaceEDotAux rest
  | c :: rest => c :: replaceEDotAux rest

/-- Python `s.replace('e.', 'e1.')` on strings. -/
def replaceEDot (s : String) : String := ⟨replaceEDotAux s.data⟩

/-- Model of `'Q' in target.upper()`: a character maps to `Q` under the
basic-latin upper-case map exactly when it is `Q` or `q`. -/
def upperHasQ (s : String) : Bool := s.data.any fun c => c == 'Q' || c == 'q'

/-- Model of Python `a or b` for an optional string `a` (both `None` and the
empty string are falsy). -/
def pyOrElse (a : Option String) (b : String) : String :=
  match a with
  | none => b
  | some s => if s = "" then b else s

/-! ## The claim record (`ValidationClaim` dataclass) -/

/-- `ValidationClaim` from `validation.py`.  The defensive branch of the
route-filter builders that accepts a raw `dict` (malformed extractor
output) is outside this string-typed model; every claim under scrutiny
quantifies over string descriptors.  Floats are modelled as `ℚ`. -/
structure ValidationClaim where
  claim_text : String
  claim_type : String
  vessel : Option String := none
  route : Option String := none
  period : Option String := none
  metric : Option String := none
  expected_change : Option String := none
  confidence : ℚ := 0
deriving DecidableEq, Repr

/-! ## Filter builders (`ValidationQueryGenerator._build_*`) -/

/-- `ValidationQueryGenerator._build_vessel_filter`.  A descriptor of
exactly 7 ASCII digits is treated as an IMO number (exact numeric match);
any other descriptor with a nonempty strip becomes a wildcard `LIKE` on the
vessel name; otherwise the fragment is empty. -/
def build_vessel_filter (vessel_info : Option String) : String :=
  match vessel_info with
  | none => ""
  | some v =>
    if v = "" then ""
    else if pyIsDigits v && v.length == 7 then
      "AND e.imo = " ++ v
    else if pyStrip v ≠ "" then
      "AND v.name LIKE \x27%%" ++ v ++ "%%\x27"
    else ""

/-- `ValidationQueryGenerator._build_route_filter` (string-descriptor
path).  Three sub-cases: `'->'` pair, hyphenated region pair, single
token; when a split unexpectedly yields fewer than two parts the function
falls through to its final `return ""`. -/
def build_route_filter (route_info : Option String) : String :=
  match route_info with
  | none => ""
  | some r0 =>
    if r0 = "" then ""
    else
      let r := pyStrip r0
      if strHasSub r "->" then
        match (pySplitArrow r).map pyStrip with
        | origin :: destination :: _ =>
          "\n                AND (e.portname LIKE \x27%%" ++ origin ++
          "%%\x27 OR e.portname LIKE \x27%%" ++ destination ++
          "%%\x27)\n                AND (e.next_port LIKE \x27%%" ++ origin ++
          "%%\x27 OR e.next_port LIKE \x27%%" ++ destination ++
          "%%\x27)\n                "
        | _ => ""
      else if strHasSub r "-" && !pyIsDigits (removeDashes r) then
        match (pySplitDash r).map pyStrip with
        | region1 :: region2 :: _ =>
          "\n                AND (p_start.zone LIKE \x27%%" ++ region1 ++
          "%%\x27 OR p_start.zone LIKE \x27%%" ++ region2 ++
          "%%\x27\n                     OR p_end.zone LIKE \x27%%" ++ region1 ++
          "%%\x27 OR p_end.zone LIKE \x27%%" ++ region2 ++
          "%%\x27)\n                "
        | _ => ""
      else
        "\n            AND (e.portname LIKE \x27%%" ++ r ++
        "%%\x27 \n                 OR e.next_port LIKE \x27%%" ++ r ++
        "%%\x27\n                 OR p.zone LIKE \x27%%" ++ r ++
        "%%\x27)\n            "

/-- `ValidationQueryGenerator._build_route_filter_transit`.  Unlike the
general route filter it does not strip the whole descriptor, has no
region-pair sub-case, and its arrow case is a strict directional pair on
the derived `origin_port`/`destination_port` columns; every non-arrow
descriptor falls through to a two-column disjunction. -/
def build_route_filter_transit (route_info : Option String) : String :=
  match route_info with
  | none => ""
  | some r =>
    if r = "" then ""
    else
      let fallback :=
        "AND (origin_port LIKE \x27%%" ++ r ++
        "%%\x27 OR destination_port LIKE \x27%%" ++ r ++ "%%\x27)"
      if strHasSub r "->" then
        match (pySplitArrow r).map pyStrip with
        | origin :: destination :: _ =>
          "\n                AND origin_port LIKE \x27%%" ++ origin ++
          "%%\x27\n                AND destination_port LIKE \x27%%" ++ destination ++
          "%%\x27\n                "
        | _ => fallback
      else fallback

/-- `ValidationQueryGenerator._build_period_filter`.  The descriptor (or,
when it is absent or empty, the caller-supplied default quarter) dispatches
on: contains `Q` case-insensitively → quarter equality on the uppercased
token; exactly 4 digits → year equality; anything else nonempty → a
`start >= descriptor` comparison; empty → empty fragment. -/
def build_period_filter (period_info : Option String) (default_quarter : String) :
    String :=
  let target_period := pyOrElse period_info default_quarter
  if target_period = "" then ""
  else if upperHasQ target_period then
    "AND CONCAT(YEAR(e.start), \x27Q\x27, QUARTER(e.start)) = \x27" ++
      pyUpper target_period ++ "\x27"
  else if target_period.length == 4 && pyIsDigits target_period then
    "AND YEAR(e.start) = " ++ target_period
  else
    "AND e.start >= \x27" ++ target_period ++ "\x27"

/-! ## Query templates (`ValidationQueryGenerator._*_query`) -/

/-- `ValidationQueryGenerator._fuel_consumption_query`: the CO2/emissions
template over the `v_MRV` table. -/
def fuel_consumption_query (claim : ValidationClaim) (quarter : String) : String :=
  let vessel_filter := build_vessel_filter claim.vessel
  let route_filter := build_route_filter claim.route
  let period_filter := build_period_filter claim.period quarter
  "\n        SELECT \n            e.imo,\n            v.name as vessel_name,\n            m.co2nm,\n            COUNT(*) as voyage_count,\n            MIN(e.start) as period_start,\n            MAX(e.start) as period_end\n        FROM escalas e\n        JOIN port_trace pt ON pt.imo = e.imo\n        JOIN v_fleet v ON e.imo = v.imo\n        JOIN v_MRV m ON e.imo = m.imo\n        LEFT JOIN ports p_start ON e.portname = p_start.portname\n        LEFT JOIN ports p_end ON e.next_port = p_end.portname\n        WHERE m.co2nm IS NOT NULL\n        AND m.co2nm > 0\n        "
    ++ vessel_filter ++ "\n        " ++ route_filter ++ "\n        " ++ period_filter
    ++ "\n        GROUP BY e.imo, v.name, m.co2nm\n        HAVING voyage_count >= 2\n        ORDER BY m.co2nm DESC\n        LIMIT 50\n        "

/-- `ValidationQueryGenerator._transit_time_query`: the self-joined derived
relation (`transit_calculations`) pairing each port call with the next call
of the same vessel, aggregated per origin/destination pair.  The vessel and
period fragments have their `e.` alias rewritten to `e1.`. -/
def transit_time_query (claim : ValidationClaim) (quarter : String) : String :=
  let vessel_filter := build_vessel_filter claim.vessel
  let period_filter := build_period_filter claim.period quarter
  "\n        WITH transit_calculations AS (\n            SELECT \n                e1.imo,\n                v.name as vessel_name,\n                e1.portname as origin_port,\n                e2.portname as destination_port,\n                TIMESTAMPDIFF(DAY, e1.end, e2.start) as transit_days,\n                e1.start as voyage_start\n            FROM escalas e1\n            JOIN escalas e2 ON e1.imo = e2.imo \n            JOIN v_fleet v ON e1.imo = v.imo\n            JOIN port_trace pt ON pt.imo = e1.imo\n            WHERE e1.next_port = e2.portname\n            AND e2.start > e1.end\n            AND TIMESTAMPDIFF(DAY, e1.end, e2.start) BETWEEN 1 AND 60\n            "
    ++ replaceEDot vessel_filter ++ "\n            " ++ replaceEDot period_filter
    ++ "\n        )\n        SELECT \n            imo,\n            vessel_name,\n            origin_port,\n            destination_port,\n            AVG(transit_days) as avg_transit_days,\n            STDDEV(transit_days) as transit_deviation,\n            COUNT(*) as voyage_count,\n            MIN(voyage_start) as period_start,\n            MAX(voyage_start) as period_end\n        FROM transit_calculations\n        WHERE 1=1 "
    ++ build_route_filter_transit claim.route
    ++ "\n        GROUP BY imo, vessel_name, origin_port, destination_port\n        HAVING voyage_count >= 2\n        ORDER BY avg_transit_days DESC\n        LIMIT 30\n        "

/-- `ValidationQueryGenerator._route_pattern_query`. -/
def route_pattern_query (claim : ValidationClaim) (quarter : String) : String :=
  let vessel_filter := build_vessel_filter claim.vessel
  let period_filter := build_period_filter claim.period quarter
  "\n        SELECT \n            e.imo,\n            v.name as vessel_name,\n            GROUP_CONCAT(\n                DISTINCT CONCAT(e.portname, \x27->\x27, COALESCE(e.next_port, \x27END\x27))\n                ORDER BY e.start \n                SEPARATOR \x27 | \x27\n            ) as route_pattern,\n            COUNT(DISTINCT e.portname) as unique_ports,\n            COUNT(*) as total_calls,\n            GROUP_CONCAT(DISTINCT p.zone) as zones_visited,\n            AVG(m.co2nm / 3.2 / 1000) as avg_fuel_consumption\n        FROM escalas e\n        JOIN port_trace pt ON pt.imo = e.imo\n        JOIN v_fleet v ON e.imo = v.imo\n        LEFT JOIN v_MRV m ON e.imo = m.imo\n        LEFT JOIN ports p ON e.portname = p.portname\n        WHERE 1=1\n        "
    ++ vessel_filter ++ "\n        " ++ period_filter
    ++ "\n        GROUP BY e.imo, v.name\n        HAVING total_calls >= 3\n        ORDER BY unique_ports DESC, total_calls DESC\n        LIMIT 25\n        "

/-- `ValidationQueryGenerator._port_frequency_query`. -/
def port_frequency_query (claim : ValidationClaim) (quarter : String) : String :=
  let vessel_filter := build_vessel_filter claim.vessel
  let route_filter := build_route_filter claim.route
  let period_filter := build_period_filter claim.period quarter
  "\n        SELECT \n            e.portname,\n            p.country,\n            p.zone,\n            COUNT(DISTINCT e.imo) as unique_vessels,\n            COUNT(*) as total_calls\n        FROM escalas e\n        STRAIGHT_JOIN port_trace pt ON pt.imo = e.imo\n        LEFT JOIN ports p ON e.portname = p.portname\n        WHERE 1=1\n        "
    ++ vessel_filter ++ "\n        " ++ route_filter ++ "\n        " ++ period_filter
    ++ "\n        GROUP BY e.portname, p.country, p.zone\n        HAVING total_calls >= 5\n        ORDER BY total_calls DESC\n        LIMIT 20\n        "

/-- `ValidationQueryGenerator._vessel_movement_query`. -/
def vessel_movement_query (claim : ValidationClaim) (quarter : String) : String :=
  let vessel_filter := build_vessel_filter claim.vessel
  let route_filter := build_route_filter claim.route
  let period_filter := build_period_filter claim.period quarter
  "\n        SELECT \n            e.imo,\n            v.name as vessel_name,\n            e.portname,\n            e.next_port,\n            e.start,\n            e.end,\n            m.co2nm / 3.2 / 1000 as fuel_consumption,\n            p.country,\n            p.zone\n        FROM escalas e\n        JOIN port_trace pt ON pt.imo = e.imo\n        JOIN v_fleet v ON e.imo = v.imo\n        LEFT JOIN v_MRV m ON e.imo = m.imo\n        LEFT JOIN ports p ON e.portname = p.portname\n        WHERE 1=1\n        "
    ++ vessel_filter ++ "\n        " ++ route_filter ++ "\n        " ++ period_filter
    ++ "\n        ORDER BY e.start DESC\n        LIMIT 100\n        "

/-- `ValidationQueryGenerator._general_movement_query` (the fallback):
delegates to the vessel-movement template. -/
def general_movement_query (claim : ValidationClaim) (quarter : String) : String :=
  vessel_movement_query claim quarter

/-- `ValidationQueryGenerator.generate_validation_query`: dictionary
dispatch on `claim_type`, with `_general_movement_query` as the
`dict.get` default for every unrecognized type. -/
def generate_validation_query (claim : ValidationClaim) (quarter : String) : String :=
  if claim.claim_type = "fuel_consumption" then fuel_consumption_query claim quarter
  else if claim.claim_type = "transit_time" then transit_time_query claim quarter
  else if claim.claim_type = "route_pattern" then route_pattern_query claim quarter
  else if claim.claim_type = "port_frequency" then port_frequency_query claim quarter
  else if claim.claim_type = "vessel_movement" then vessel_movement_query claim quarter
  else general_movement_query claim quarter

/-! ## Analysis-response parsing (`ValidationAnalyzer._parse_analysis_response`
and the confidence extraction of `dashboard.py run_single_claim_validation`) -/

/-- The character class `[0-9.]` of the CONFIDENCE regex. -/
def isDigitDot (c : Char) : Bool := c.isDigit || c == '.'

/-- Case-insensitive anchored match of a label (models `re.IGNORECASE`). -/
def leadsWithCI : List Char → List Char → Bool
  | [], _ => true
  | _ :: _, [] => false
  | p :: ps, c :: cs => (p.toLower == c.toLower) && leadsWithCI ps cs

/-- One anchored attempt of `CONFIDENCE:\s*([0-9.]+)` (case-insensitive):
after the label, greedily skip whitespace, then take the maximal run of
`[0-9.]`; the attempt fails when that run is empty (whitespace and `[0-9.]`
are disjoint, so no backtracking can save it). -/
def confTokenAt (s : List Char) : Option (List Char) :=
  if leadsWithCI "CONFIDENCE:".data s then
    let rest := (s.drop "CONFIDENCE:".length).dropWhile Char.isWhitespace
    let run := rest.takeWhile isDigitDot
    if run.isEmpty then none else some run
  else none

/-- `re.search` of the CONFIDENCE pattern: the leftmost position with a
successful anchored attempt wins. -/
def findConfToken : List Char → Option (List Char)
  | [] => none
  | c :: rest =>
    match confTokenAt (c :: rest) with
    | some run => some run
    | none => findConfToken rest

/-- The captured group of `re.search(r'CONFIDENCE:\s*([0-9.]+)', text,
re.IGNORECASE)` (the same pattern is used in `validation.py` with
`re.DOTALL` added, which is irrelevant to this dot-free pattern, and in
`dashboard.py`). -/
def parse_confidence_token (text : String) : Option String :=
  (findConfToken text.data).map fun l => ⟨l⟩

/-- Numeric value of a digit run. -/
def digitsToNat (cs : List Char) : ℕ :=
  cs.foldl (fun a c => a * 10 + (c.toNat - 48)) 0

/-- Model of Python `float()` on a string drawn from the class `[0-9.]+`:
conversion succeeds iff the string has at most one dot and at least one
digit (`"1.5"`, `"7"`, `".5"`, `"2."` succeed; `"."`, `"1.2.3"` raise
`ValueError`, modelled as `none`).  Values are exact rationals. -/
def pyFloatOfRun (s : String) : Option ℚ :=
  let cs := s.data
  if cs.isEmpty then none
  else
    let intPart := cs.takeWhile (· != '.')
    match cs.dropWhile (· != '.') with
    | [] => some (digitsToNat intPart : ℚ)
    | _ :: frac =>
      if frac.contains '.' then none
      else if intPart.isEmpty && frac.isEmpty then none
      else some ((digitsToNat intPart : ℚ) + (digitsToNat frac : ℚ) / (10 : ℚ) ^ frac.length)

/-- The confidence computed on the non-exception path of
`ValidationAnalyzer.analyze_validation_results`:
`float(analysis.get('confidence', 0.0))`.  A missing CONFIDENCE field
yields the float `0.0`; a matched token on which `float` raises
`ValueError` is modelled as `none` (the surrounding `try` then produces the
hard-failure result). -/
def analyzer_confidence (text : String) : Option ℚ :=
  match parse_confidence_token text with
  | none => some 0
  | some tok => pyFloatOfRun tok

/-- One anchored attempt of `LABEL:\s*(.+?)(?:\n|$)`: skip whitespace after
the label, capture up to the end of the line; fails when nothing is left to
capture. -/
def lineTokenAt (label : List Char) (s : List Char) : Option (List Char) :=
  if leadsWithCI label s then
    let rest := (s.drop label.length).dropWhile Char.isWhitespace
    let run := rest.takeWhile (· != '\n')
    if run.isEmpty then none else some run
  else none

/-- Leftmost successful anchored attempt of the line-field pattern. -/
def findLineToken (label : List Char) : List Char → Option (List Char)
  | [] => none
  | c :: rest =>
    match lineTokenAt label (c :: rest) with
    | some run => some run
    | none => findLineToken label rest

/-- Model of Python `str.lower()` (basic-latin case mapping). -/
def pyLower (s : String) : String := ⟨s.data.map Char.toLower⟩

/-- `analysis.get('support', 'No').lower() in ['yes', 'partially']`, the
SUPPORT field being parsed by `SUPPORT:\s*(.+?)(?:\n|$)` and stripped. -/
def analyzer_supports (text : String) : Bool :=
  match findLineToken "SUPPORT:".data text.data with
  | none => false
  | some run =>
    let v := pyLower (pyStrip ⟨run⟩)
    v = "yes" || v = "partially"

/-- Take characters until a stop sequence starts, matching the stop
sequence case-insensitively (used for the EVIDENCE terminator
`(?:\nLIMITATIONS:|$)`; `re.IGNORECASE` applies to the whole pattern, so a
lowercase `limitations:` header also terminates the capture). -/
def takeUntilSeqCI (stop : List Char) : List Char → List Char
  | [] => []
  | c :: rest => if leadsWithCI stop (c :: rest) then [] else c :: takeUntilSeqCI stop rest

/-- The EVIDENCE field: `EVIDENCE:\s*(.+?)(?:\nLIMITATIONS:|$)` with
`re.DOTALL`, captured up to the LIMITATIONS header or the end, stripped;
an absent field defaults to the empty string. -/
def analyzer_evidence (text : String) : String :=
  let rec go : List Char → Option (List Char)
    | [] => none
    | c :: rest =>
      if leadsWithCI "EVIDENCE:".data (c :: rest) then
        let after := ((c :: rest).drop "EVIDENCE:".length).dropWhile Char.isWhitespace
        let run := takeUntilSeqCI "\nLIMITATIONS:".data after
        if run.isEmpty then go rest else some run
      else go rest
  match go text.data with
  | none => ""
  | some run => pyStrip ⟨run⟩

/-- The LIMITATIONS field: `LIMITATIONS:\s*(.+?)(?:\n|$)`, stripped; an
absent field defaults to the empty string. -/
def analyzer_limitations (text : String) : String :=
  match findLineToken "LIMITATIONS:".data text.data with
  | none => ""
  | some run => pyStrip ⟨run⟩

/-! ## `ValidationAnalyzer.analyze_validation_results` -/

/-- A result row: an ordered tuple of column values (§6 of the spec). -/
abbrev Row := List String

/-- The dictionary returned by `analyze_validation_results`. -/
structure AnalysisResult where
  supports_claim : Bool
  confidence : ℚ
  evidence : String
  limitations : String
  analysis_text : String
  data_points : ℕ
deriving DecidableEq, Repr

/-- `ValidationAnalyzer.analyze_validation_results`.  `completion` models
the LLM call: `.error e` is the call raising with message `e`.  Every
exception inside the `try` (the completion call, or `float` on a matched
confidence token) lands in the same `except` branch, which returns the
hard-failure dictionary with `confidence=0.0`, `supports_claim=False` and
the error message in `limitations`; the function itself never raises. -/
def analyze_validation_results (completion : Except String String)
    (query_results : List Row) : AnalysisResult :=
  match completion with
  | .error e =>
    ⟨false, 0, "", "Analysis error: " ++ e, "", query_results.length⟩
  | .ok content =>
    match analyzer_confidence content with
    | none =>
      ⟨false, 0, "", "Analysis error: could not convert string to float", "",
        query_results.length⟩
    | some c =>
      ⟨analyzer_supports content, c, analyzer_evidence content,
        analyzer_limitations content, content, query_results.length⟩

/-- The confidence computation of `dashboard.py run_single_claim_validation`
(lines 1071–1085): the same CONFIDENCE token search, a `0.5` default when
the field is missing, a `max(0.0, min(1.0, ·))` clamp, and a local
`except` that turns a `float` error into `0.5`. -/
def dashboard_confidence (analysis_text : String) : ℚ :=
  match parse_confidence_token analysis_text with
  | none => max 0 (min 1 (1/2))
  | some tok =>
    match pyFloatOfRun tok with
    | none => 1/2
    | some c => max 0 (min 1 c)

/-! ## Orchestrator (`DualDatabaseValidator`) -/

/-- The `claim_data` record handed to `store_validation_claim`. -/
structure StoredClaim where
  research_metadata_id : ℤ
  claim_text : String
  claim_type : String
  vessel_filter : String
  route_filter : String
  period_filter : String
  validation_query : String
  confidence_score : ℚ
  supports_claim : Bool
  data_points_found : ℕ
  analysis_text : String
deriving DecidableEq, Repr

/-- The dictionary returned by `_validate_single_claim`.  The validated and
failed shapes are merged into one record: fields absent from one of the two
source dictionaries are `Option`s.  `stored` is the record that was
successfully persisted through `store_validation_claim`, when that call was
reached and did not raise. -/
structure SingleClaimOutcome where
  claim : ValidationClaim
  status : String
  confidence : ℚ
  supports_claim : Bool
  query : Option String
  analysis : Option AnalysisResult
  data_results : List Row
  error : Option String
  stored : Option StoredClaim
deriving DecidableEq, Repr

/-- `DualDatabaseValidator._validate_single_claim`.  `execResult` models
`execute_traffic_query` (raising on `.error`), `completion` the analysis
LLM call, `storeResult` the `store_validation_claim` write.  Any raised
exception is caught by the outer `except`, which returns the
`status='failed'` dictionary with `confidence` 0.0 and `supports_claim`
False. -/
def validate_single_claim (claim : ValidationClaim) (research_metadata_id : ℤ)
    (execResult : Except String (List Row)) (completion : Except String String)
    (storeResult : Except String Unit) : SingleClaimOutcome :=
  let query := generate_validation_query claim (pyOrElse claim.period "2025Q1")
  match execResult with
  | .error e => ⟨claim, "failed", 0, false, none, none, [], some e, none⟩
  | .ok results =>
    let analysis := analyze_validation_results completion results
    let claim_data : StoredClaim :=
      ⟨research_metadata_id, claim.claim_text, claim.claim_type,
        claim.vessel.getD "", claim.route.getD "", claim.period.getD "",
        query, analysis.confidence, analysis.supports_claim,
        analysis.data_points, analysis.analysis_text⟩
    match storeResult with
    | .error e => ⟨claim, "failed", 0, false, none, none, [], some e, none⟩
    | .ok _ =>
      ⟨claim, "validated", analysis.confidence, analysis.supports_claim,
        some query, some analysis, results.take 5, none, some claim_data⟩

/-! ## Confidence aggregation (`_calculate_overall_confidence`) -/

/-- The fields of a per-claim result dictionary that
`_calculate_overall_confidence` reads: `status`, `confidence`,
`supports_claim`, and `analysis['data_points']`.  A `failed` dictionary has
no `analysis` key in the source and the loop never reads it; the
projection below supplies 0 for it. -/
structure VResult where
  status : String
  confidence : ℚ
  supports_claim : Bool
  data_points : ℕ
deriving DecidableEq, Repr

/-- Projection of a per-claim outcome to the fields the aggregation reads. -/
def toVResult (o : SingleClaimOutcome) : VResult :=
  ⟨o.status, o.confidence, o.supports_claim, (o.analysis.map (·.data_points)).getD 0⟩

/-- One iteration of the accumulation loop of
`_calculate_overall_confidence`; the accumulator is
`(weighted_confidence, total_weight)`. -/
def confidenceStep (acc : ℚ × ℚ) (result : VResult) : ℚ × ℚ :=
  if result.status = "validated" then
    let data_weight := min ((result.data_points : ℚ) * (1/10) + 1) 3
    let support_weight : ℚ := if result.supports_claim then 3/2 else 1
    let final_weight := data_weight * support_weight
    (acc.1 + result.confidence * final_weight, acc.2 + final_weight)
  else acc

/-- `DualDatabaseValidator._calculate_overall_confidence`: early 0.0 on an
empty list, then the loop, then
`min(weighted_confidence / total_weight if total_weight > 0 else 0.0, 1.0)`. -/
def calculate_overall_confidence (validation_results : List VResult) : ℚ :=
  if validation_results.isEmpty then 0
  else
    let s := validation_results.foldl confidenceStep (0, 0)
    min (if s.2 > 0 then s.1 / s.2 else 0) 1

/-- The per-result weight exactly as the spec words it:
`min(data_points_found * 0.1 + 1.0, 3.0)` multiplied by `1.5` if
`supports_claim` else `1.0`. -/
def claimWeight (r : VResult) : ℚ :=
  min ((r.data_points : ℚ) * (1/10) + 1) 3 * (if r.supports_claim then 3/2 else 1)

/-- The aggregate as claim C2 and the spec (§4.5) word it: the weighted average over
the validated results clamped to [0.0, 1.0] on both sides. -/
def spec_weighted_aggregate_clamped (l : List VResult) : ℚ :=
  let v := l.filter fun r => r.status == "validated"
  if v.isEmpty then 0
  else
    max 0 (min ((v.map fun r => r.confidence * claimWeight r).sum / (v.map claimWeight).sum) 1)

/-- Weighted confidence mass of the validated results (closed form of the
loop's first accumulator). -/
def weightedConfSum (l : List VResult) : ℚ :=
  ((l.filter fun r => r.status == "validated").map fun r =>
    r.confidence * claimWeight r).sum

/-- Total weight of the validated results (closed form of the loop's second
accumulator). -/
def totalWeightSum (l : List VResult) : ℚ :=
  ((l.filter fun r => r.status == "validated").map claimWeight).sum

/-! ## Fragment-comparison helpers for the route-filter refinement claim -/

/-- Collapse every whitespace run to a single space (comparison of SQL
fragments up to insignificant whitespace); the boolean argument records
whether the previous character was whitespace. -/
def squashWsAux : Bool → List Char → List Char
  | _, [] => []
  | prev, c :: rest =>
    if c.isWhitespace then
      if prev then squashWsAux true rest else ' ' :: squashWsAux true rest
    else c :: squashWsAux false rest

/-- Whitespace-normal form of a SQL fragment. -/
def normalizeWs (s : String) : String := pyStrip ⟨squashWsAux true s.data⟩

/-- The column renaming that claim C4 asserts relates the two route-filter
builders: `e.portname` ↦ `origin_port` and `e.next_port` ↦
`destination_port`. -/
def renameRouteColsAux : List Char → List Char
  | 'e' :: '.' :: 'p' :: 'o' :: 'r' :: 't' :: 'n' :: 'a' :: 'm' :: 'e' :: rest =>
      "origin_port".data ++ renameRouteColsAux rest
  | 'e' :: '.' :: 'n' :: 'e' :: 'x' :: 't' :: '_' :: 'p' :: 'o' :: 'r' :: 't' :: rest =>
      "destination_port".data ++ renameRouteColsAux rest
  | c :: rest => c :: renameRouteColsAux rest
  | [] => []

/-- String-level column renaming for the C4 comparison. -/
def renameRouteCols (s : String) : String := ⟨renameRouteColsAux s.data⟩

/-! ## Helper lemmas -/

theorem leadsWith_append (p s t : List Char) (h : leadsWith p s = true) :
    leadsWith p (s ++ t) = true := by
  induction p generalizing s with
  | nil => rfl
  | cons a as ih =>
    cases s with
    | nil => simp [leadsWith] at h
    | cons b bs =>
      simp only [leadsWith, Bool.and_eq_true] at h ⊢
      exact ⟨h.1, ih bs h.2⟩

theorem containsSeq_append_left (p a b : List Char) (h : containsSeq p a = true) :
    containsSeq p (a ++ b) = true := by
  induction a with
  | nil =>
    cases p with
    | nil => cases b <;> simp [containsSeq, leadsWith]
    | cons c cs => simp [containsSeq, leadsWith] at h
  | cons c cs ih =>
    simp only [containsSeq, Bool.or_eq_true] at h
    rcases h with h | h
    · simp only [List.cons_append, containsSeq, Bool.or_eq_true]
      exact Or.inl (leadsWith_append _ _ _ h)
    · simp only [List.cons_append, containsSeq, Bool.or_eq_true]
      exact Or.inr (ih h)

theorem leadsWith_refl (l : List Char) : leadsWith l l = true := by
  induction l with
  | nil => rfl
  | cons c cs ih => simp [leadsWith, ih]

theorem containsSeq_self (p : List Char) : containsSeq p p = true := by
  cases p with
  | nil => rfl
  | cons c cs => simp [containsSeq, leadsWith_refl]

theorem containsSeq_append_self (p x : List Char) : containsSeq p (x ++ p) = true := by
  induction x with
  | nil => simpa using containsSeq_self p
  | cons c cs ih => simp [containsSeq, ih]

theorem string_data_append (s t : String) : (s ++ t).data = s.data ++ t.data := rfl

theorem strHasSub_append_left (a b pat : String) (h : strHasSub a pat = true) :
    strHasSub (a ++ b) pat = true := by
  unfold strHasSub at h ⊢
  rw [string_data_append]
  exact containsSeq_append_left _ _ _ h

theorem strHasSub_append_self (x pat : String) : strHasSub (x ++ pat) pat = true := by
  unfold strHasSub
  rw [string_data_append]
  exact containsSeq_append_self _ _

theorem one_le_claimWeight (r : VResult) : 1 ≤ claimWeight r := by
  unfold claimWeight
  have h1 : (1 : ℚ) ≤ min ((r.data_points : ℚ) * (1 / 10) + 1) 3 := by
    refine le_min ?_ (by norm_num)
    have : (0 : ℚ) ≤ (r.data_points : ℚ) * (1 / 10) := by positivity
    linarith
  rcases Bool.eq_false_or_eq_true r.supports_claim with h | h
  · rw [h]
    simp only [if_true]
    nlinarith
  · rw [h]
    simp only [Bool.false_eq_true, if_false, mul_one]
    exact h1

theorem claimWeight_nonneg (r : VResult) : 0 ≤ claimWeight r :=
  le_trans (by norm_num) (one_le_claimWeight r)

theorem totalWeightSum_nonneg (l : List VResult) : 0 ≤ totalWeightSum l := by
  unfold totalWeightSum
  induction l with
  | nil => simp
  | cons r t ih =>
    by_cases h : (r.status == "validated") = true
    · simp only [List.filter_cons, h, if_true, List.map_cons, List.sum_cons]
      exact add_nonneg (claimWeight_nonneg r) ih
    · have hf : (r.status == "validated") = false := by simpa using h
      simp only [List.filter_cons, hf, Bool.false_eq_true, if_false]
      exact ih

theorem foldl_confidenceStep (l : List VResult) (wc tw : ℚ) :
    l.foldl confidenceStep (wc, tw) = (wc + weightedConfSum l, tw + totalWeightSum l) := by
  induction l generalizing wc tw with
  | nil => simp [weightedConfSum, totalWeightSum]
  | cons r t ih =>
    simp only [List.foldl_cons]
    by_cases h : r.status = "validated"
    · have hb : (r.status == "validated") = true := by simpa using h
      rw [show confidenceStep (wc, tw) r =
          (wc + r.confidence * claimWeight r, tw + claimWeight r) by
        simp [confidenceStep, h, claimWeight]]
      rw [ih]
      simp [weightedConfSum, totalWeightSum, List.filter_cons, hb]
      constructor <;> ring
    · have hb : (r.status == "validated") = false := by simpa using h
      rw [show confidenceStep (wc, tw) r = (wc, tw) by simp [confidenceStep, h]]
      rw [ih]
      simp [weightedConfSum, totalWeightSum, List.filter_cons, hb]

theorem weightedConfSum_append (a b : List VResult) :
    weightedConfSum (a ++ b) = weightedConfSum a + weightedConfSum b := by
  simp [weightedConfSum, List.filter_append]

theorem totalWeightSum_append (a b : List VResult) :
    totalWeightSum (a ++ b) = totalWeightSum a + totalWeightSum b := by
  simp [totalWeightSum, List.filter_append]

/-- Closed form of `_calculate_overall_confidence` in terms of the two
sums. -/
theorem calculate_overall_confidence_eq (l : List VResult) :
    calculate_overall_confidence l =
      if l.isEmpty then 0
      else min (if totalWeightSum l > 0 then weightedConfSum l / totalWeightSum l else 0) 1 := by
  unfold calculate_overall_confidence
  rcases l with _ | ⟨r, t⟩
  · rfl
  · simp only [List.isEmpty_cons, Bool.false_eq_true, if_false]
    rw [foldl_confidenceStep]
    simp

theorem filter_validated_eq_nil_of_totalWeightSum_eq_zero (l : List VResult)
    (h : totalWeightSum l = 0) : (l.filter fun r => r.status == "validated") = [] := by
  unfold totalWeightSum at h
  rcases hv : l.filter fun r => r.status == "validated" with _ | ⟨x, xs⟩
  · exact hv
  · exfalso
    rw [hv] at h
    simp only [List.map_cons, List.sum_cons] at h
    have h1 : 1 ≤ claimWeight x := one_le_claimWeight x
    have h2 : 0 ≤ (xs.map claimWeight).sum :=
      List.sum_nonneg (by
        intro q hq
        obtain ⟨y, _, rfl⟩ := List.mem_map.mp hq
        exact claimWeight_nonneg y)
    linarith

theorem weightedConfSum_eq_zero_of_totalWeightSum_eq_zero (l : List VResult)
    (h : totalWeightSum l = 0) : weightedConfSum l = 0 := by
  unfold weightedConfSum
  rw [filter_validated_eq_nil_of_totalWeightSum_eq_zero l h]
  rfl

theorem weightedConfSum_nonneg (l : List VResult)
    (h : ∀ x ∈ l, x.status = "validated" → 0 ≤ x.confidence) : 0 ≤ weightedConfSum l := by
  unfold weightedConfSum
  refine List.sum_nonneg ?_
  intro q hq
  obtain ⟨y, hy, rfl⟩ := List.mem_map.mp hq
  have hmem := List.mem_of_mem_filter hy
  have hval : y.status = "validated" := by
    have := List.of_mem_filter hy
    simpa using this
  exact mul_nonneg (h y hmem hval) (claimWeight_nonneg y)

theorem sum_map_claimWeight_nonneg (xs : List VResult) : 0 ≤ (xs.map claimWeight).sum :=
  List.sum_nonneg (by
    intro q hq
    obtain ⟨y, _, rfl⟩ := List.mem_map.mp hq
    exact claimWeight_nonneg y)

theorem totalWeightSum_pos_of_filter_ne_nil (l : List VResult)
    (hv : (l.filter fun r => r.status == "validated") ≠ []) : 0 < totalWeightSum l := by
  unfold totalWeightSum
  rcases hx : l.filter fun r => r.status == "validated" with _ | ⟨x, xs⟩
  · exact absurd hx hv
  · rw [hx]
    simp only [List.map_cons, List.sum_cons]
    have h1 := one_le_claimWeight x
    have h2 := sum_map_claimWeight_nonneg xs
    linarith

theorem weightedConfSum_le_mul (l : List VResult) (c : ℚ)
    (h : ∀ x ∈ l, x.status = "validated" → x.confidence ≤ c) :
    weightedConfSum l ≤ c * totalWeightSum l := by
  unfold weightedConfSum totalWeightSum
  induction l with
  | nil => simp
  | cons r t ih =>
    have ht : ∀ x ∈ t, x.status = "validated" → x.confidence ≤ c :=
      fun x hx => h x (List.mem_cons_of_mem r hx)
    by_cases hr : (r.status == "validated") = true
    · have hval : r.status = "validated" := by simpa using hr
      have hc : r.confidence ≤ c := h r (List.mem_cons_self r t) hval
      have hw := claimWeight_nonneg r
      simp only [List.filter_cons, hr, if_true, List.map_cons, List.sum_cons]
      have hih := ih ht
      have hrc : r.confidence * claimWeight r ≤ c * claimWeight r :=
        mul_le_mul_of_nonneg_right hc hw
      rw [mul_add]
      linarith
    · have hrb : (r.status == "validated") = false := by
        simpa using hr
      simp only [List.filter_cons, hrb, Bool.false_eq_true, if_false]
      exact ih ht

/-- C2 (confirmed).  `_calculate_overall_confidence` equals the weighted
average of the confidences of exactly the `validated` results — each
weighted by `min(data_points * 0.1 + 1.0, 3.0)` times `1.5` if
`supports_claim` else `1.0` — clamped to `[0.0, 1.0]`, for every list of
per-claim validation results (whose validated confidences are nonnegative,
per the data model's `confidence ∈ [0.0, 1.0]` invariant; the source's
`min(·, 1.0)` then coincides with the two-sided clamp); with no validated
result (including the empty list) the aggregate is exactly `0.0`; and on
one failed result plus one validated result with confidence 0.8,
`supports_claim` true and 5 data points, the aggregate is exactly 0.8. -/
theorem claim_C2 (l : List VResult)
    (hnn : ∀ x ∈ l, x.status = "validated" → 0 ≤ x.confidence) :
    calculate_overall_confidence l = spec_weighted_aggregate_clamped l ∧
    ((l.filter fun r => r.status == "validated") = [] →
      calculate_overall_confidence l = 0) ∧
    calculate_overall_confidence
      [⟨"failed", 0, false, 0⟩, ⟨"validated", 4/5, true, 5⟩] = 4/5 := by
  have hmain : calculate_overall_confidence l = spec_weighted_aggregate_clamped l := by
    rw [calculate_overall_confidence_eq]
    unfold spec_weighted_aggregate_clamped
    by_cases hm : l = []
    · subst hm; simp
    · have hne : l.isEmpty = false := by simpa [List.isEmpty_iff] using hm
      rw [hne]
      simp only [Bool.false_eq_true, if_false]
      by_cases hv : (l.filter fun r => r.status == "validated") = []
      · have hT : totalWeightSum l = 0 := by
          unfold totalWeightSum; rw [hv]; rfl
        rw [hT]
        simp [hv]
      · have hT := totalWeightSum_pos_of_filter_ne_nil l hv
        rw [if_pos hT]
        have hvE : (l.filter fun r => r.status == "validated").isEmpty = false := by
          simpa [List.isEmpty_iff] using hv
        simp only [hvE, Bool.false_eq_true, if_false]
        have hS := weightedConfSum_nonneg l hnn
        have havg : (0 : ℚ) ≤ weightedConfSum l / totalWeightSum l :=
          div_nonneg hS (le_of_lt hT)
        have hmin : (0 : ℚ) ≤ min (weightedConfSum l / totalWeightSum l) 1 :=
          le_min havg (by norm_num)
        show min (weightedConfSum l / totalWeightSum l) 1 =
          max 0 (min (weightedConfSum l / totalWeightSum l) 1)
        exact (max_eq_right hmin).symm
  refine ⟨hmain, ?_, ?_⟩
  · intro hv
    rw [hmain]
    unfold spec_weighted_aggregate_clamped
    simp [hv]
  · have hf : (("failed" : String) = "validated") = False := eq_false (by decide)
    norm_num [calculate_overall_confidence, confidenceStep, min_def, hf]

/-- C2 witness: a list whose single result failed satisfies the
nonnegativity hypothesis vacuously and aggregates to exactly 0. -/
theorem claim_C2_witness :
    calculate_overall_confidence [(⟨"failed", 0, false, 3⟩ : VResult)] = 0 :=
  (claim_C2 [⟨"failed", 0, false, 3⟩] (by decide)).2.1 (by decide)

/-- C1 counterexample: two validated results with confidences 1 and 0 (no
data points).  Turning the zero-confidence result's `supports_claim` from
false to true boosts that result's weight, which drags the weighted
average strictly down (3/5 to 1/2) — the claimed monotonicity fails. -/
theorem claim_C1_counterexample :
    calculate_overall_confidence
        [⟨"validated", 1, true, 0⟩, ⟨"validated", 0, true, 0⟩] <
      calculate_overall_confidence
        [⟨"validated", 1, true, 0⟩, ⟨"validated", 0, false, 0⟩] := by
  norm_num [calculate_overall_confidence, confidenceStep, min_def]

/-- C1 (corrected).  Flipping one result's `supports_claim` flag from false
to true (same confidence, data points and status) increases the aggregate
only under the additional hypothesis that the toggled result's confidence
is at least the confidence of every other validated result; increasing the
weight of a below-average claim lowers a weighted average, as the
counterexample shows. -/
theorem claim_C1_amended (pre post : List VResult) (c : ℚ) (d : ℕ) (st : String)
    (hle : ∀ x ∈ pre ++ post, x.status = "validated" → x.confidence ≤ c) :
    calculate_overall_confidence (pre ++ [⟨st, c, false, d⟩] ++ post) ≤
      calculate_overall_confidence (pre ++ [⟨st, c, true, d⟩] ++ post) := by
  have hisEmpty : ∀ b : Bool,
      (pre ++ [(⟨st, c, b, d⟩ : VResult)] ++ post).isEmpty = false := by
    intro b
    simp [List.isEmpty_iff]
  have hsplit : ∀ b : Bool,
      weightedConfSum (pre ++ [(⟨st, c, b, d⟩ : VResult)] ++ post) =
        weightedConfSum pre + weightedConfSum [(⟨st, c, b, d⟩ : VResult)] +
          weightedConfSum post := by
    intro b
    rw [weightedConfSum_append, weightedConfSum_append]
  have htsplit : ∀ b : Bool,
      totalWeightSum (pre ++ [(⟨st, c, b, d⟩ : VResult)] ++ post) =
        totalWeightSum pre + totalWeightSum [(⟨st, c, b, d⟩ : VResult)] +
          totalWeightSum post := by
    intro b
    rw [totalWeightSum_append, totalWeightSum_append]
  by_cases hst : st = "validated"
  · subst hst
    have hbt : (("validated" : String) == "validated") = true := by decide
    have hmidW : ∀ b : Bool,
        weightedConfSum [(⟨"validated", c, b, d⟩ : VResult)] =
          c * claimWeight (⟨"validated", c, b, d⟩ : VResult) := by
      intro b
      simp [weightedConfSum, List.filter_cons, hbt]
    have hmidT : ∀ b : Bool,
        totalWeightSum [(⟨"validated", c, b, d⟩ : VResult)] =
          claimWeight (⟨"validated", c, b, d⟩ : VResult) := by
      intro b
      simp [totalWeightSum, List.filter_cons, hbt]
    have hcwf : claimWeight (⟨"validated", c, false, d⟩ : VResult) =
        min ((d : ℚ) * (1/10) + 1) 3 := by
      simp [claimWeight]
    have hcwt : claimWeight (⟨"validated", c, true, d⟩ : VResult) =
        min ((d : ℚ) * (1/10) + 1) 3 * (3/2) := by
      simp [claimWeight]
    rw [calculate_overall_confidence_eq, calculate_overall_confidence_eq,
      hisEmpty false, hisEmpty true, hsplit false, hsplit true,
      htsplit false, htsplit true, hmidW false, hmidW true,
      hmidT false, hmidT true, hcwf, hcwt]
    simp only [Bool.false_eq_true, if_false]
    set w : ℚ := min ((d : ℚ) * (1/10) + 1) 3 with hwdef
    have hw1 : 1 ≤ w := by
      refine le_min ?_ (by norm_num)
      have : (0 : ℚ) ≤ (d : ℚ) * (1/10) := by positivity
      linarith
    have hT0 : 0 ≤ totalWeightSum pre + totalWeightSum post :=
      add_nonneg (totalWeightSum_nonneg _) (totalWeightSum_nonneg _)
    have hS_le : weightedConfSum pre + weightedConfSum post ≤
        c * (totalWeightSum pre + totalWeightSum post) := by
      have h := weightedConfSum_le_mul (pre ++ post) c hle
      rwa [weightedConfSum_append, totalWeightSum_append] at h
    have hpos1 : (0 : ℚ) < totalWeightSum pre + w + totalWeightSum post := by linarith
    have hpos2 : (0 : ℚ) < totalWeightSum pre + w * (3/2) + totalWeightSum post := by
      nlinarith
    rw [if_pos hpos1, if_pos hpos2]
    refine min_le_min ?_ le_rfl
    rw [div_le_div_iff₀ hpos1 hpos2]
    nlinarith [mul_nonneg
      (sub_nonneg.mpr hS_le)
      (show (0 : ℚ) ≤ w by linarith)]
  · have hbf : (st == "validated") = false := beq_eq_false_iff_ne.mpr hst
    have hmidW : ∀ b : Bool,
        weightedConfSum [(⟨st, c, b, d⟩ : VResult)] = 0 := by
      intro b
      simp [weightedConfSum, List.filter_cons, hbf]
    have hmidT : ∀ b : Bool,
        totalWeightSum [(⟨st, c, b, d⟩ : VResult)] = 0 := by
      intro b
      simp [totalWeightSum, List.filter_cons, hbf]
    rw [calculate_overall_confidence_eq, calculate_overall_confidence_eq,
      hisEmpty false, hisEmpty true, hsplit false, hsplit true,
      htsplit false, htsplit true, hmidW false, hmidW true,
      hmidT false, hmidT true]

/-- C1 witness: with the toggled result's confidence equal to the other
validated result's confidence, flipping the flag cannot lower the
aggregate. -/
theorem claim_C1_witness :
    calculate_overall_confidence
        ([⟨"validated", 1, true, 0⟩] ++ [⟨"validated", 1, false, 5⟩] ++ []) ≤
      calculate_overall_confidence
        ([⟨"validated", 1, true, 0⟩] ++ [⟨"validated", 1, true, 5⟩] ++ []) :=
  claim_C1_amended [⟨"validated", 1, true, 0⟩] [] 1 5 "validated" (by
    intro x hx hv
    simp only [List.append_nil, List.mem_singleton] at hx
    subst hx
    norm_num)

/-- C3 counterexample: on the analyzer's non-exception path, a response
`"CONFIDENCE: 1.5"` yields confidence `1.5` — not clamped to `[0.0, 1.0]` —
and a response with no CONFIDENCE field yields `0`, not the claimed `0.5`
neutral prior. -/
theorem claim_C3_counterexample :
    (analyze_validation_results (.ok "CONFIDENCE: 1.5") []).confidence = 3/2 ∧
    ¬ (analyze_validation_results (.ok "CONFIDENCE: 1.5") []).confidence ≤ 1 ∧
    (analyze_validation_results (.ok "SUPPORT: Yes") []).confidence = 0 ∧
    (analyze_validation_results (.ok "SUPPORT: Yes") []).confidence ≠ 1/2 := by
  have h1 : parse_confidence_token "CONFIDENCE: 1.5" = some "1.5" := by decide
  have h2 : analyzer_confidence "CONFIDENCE: 1.5" = pyFloatOfRun "1.5" := by
    simp only [analyzer_confidence, h1]
  have hdata : ("1.5" : String).data = ['1', '.', '5'] := rfl
  have hd : List.dropWhile (fun x => x != '.') ['1', '.', '5'] = ['.', '5'] := by decide
  have ht : List.takeWhile (fun x => x != '.') ['1', '.', '5'] = ['1'] := by decide
  have h5 : digitsToNat ['5'] = 5 := by decide
  have h1' : digitsToNat ['1'] = 1 := by decide
  have h3 : pyFloatOfRun "1.5" = some (3/2 : ℚ) := by
    rw [pyFloatOfRun, hdata, hd, ht]
    norm_num [h5, h1', eq_false (show ¬ (('.' : Char) = '5') from by decide)]
  have hc : (analyze_validation_results (.ok "CONFIDENCE: 1.5") []).confidence = 3/2 := by
    simp only [analyze_validation_results, h2, h3]
  have h4 : parse_confidence_token "SUPPORT: Yes" = none := by decide
  have h4' : analyzer_confidence "SUPPORT: Yes" = some 0 := by
    simp only [analyzer_confidence, h4]
  have hc0 : (analyze_validation_results (.ok "SUPPORT: Yes") []).confidence = 0 := by
    simp only [analyze_validation_results, h4']
  refine ⟨hc, ?_, hc0, ?_⟩
  · rw [hc]; norm_num
  · rw [hc0]; norm_num

/-- C3 (corrected).  The clamping to `[0.0, 1.0]` and the `0.5` default on
a missing or float-unconvertible CONFIDENCE field hold for the dashboard's
`run_single_claim_validation`; `ValidationAnalyzer.analyze_validation_results`
instead passes the parsed value through unclamped and defaults to `0.0`
when the field is missing (a matched token on which `float` raises takes
the hard-failure path). -/
theorem claim_C3_amended (text : String) (rows : List Row) :
    (0 ≤ dashboard_confidence text ∧ dashboard_confidence text ≤ 1) ∧
    (parse_confidence_token text = none →
      dashboard_confidence text = 1/2 ∧
      (analyze_validation_results (.ok text) rows).confidence = 0) ∧
    (∀ tok, parse_confidence_token text = some tok → pyFloatOfRun tok = none →
      dashboard_confidence text = 1/2) := by
  refine ⟨⟨?_, ?_⟩, ?_, ?_⟩
  · rcases h : parse_confidence_token text with _ | tok
    · simp only [dashboard_confidence, h]
      norm_num
    · rcases h2 : pyFloatOfRun tok with _ | c
      · simp only [dashboard_confidence, h, h2]
        norm_num
      · simp only [dashboard_confidence, h, h2]
        exact le_max_left 0 _
  · rcases h : parse_confidence_token text with _ | tok
    · simp only [dashboard_confidence, h]
      norm_num
    · rcases h2 : pyFloatOfRun tok with _ | c
      · simp only [dashboard_confidence, h, h2]
        norm_num
      · simp only [dashboard_confidence, h, h2]
        exact max_le (by norm_num) (min_le_left 1 c)
  · intro h
    have ha : analyzer_confidence text = some 0 := by
      simp only [analyzer_confidence, h]
    constructor
    · simp only [dashboard_confidence, h]
      norm_num
    · simp only [analyze_validation_results, ha]
  · intro tok h1 h2
    simp only [dashboard_confidence, h1, h2]

/-- C3 witness: a response with no CONFIDENCE field gives the dashboard
0.5 and the analyzer 0; a matched token that `float` rejects gives the
dashboard 0.5. -/
theorem claim_C3_witness :
    dashboard_confidence "hello" = 1/2 ∧
    (analyze_validation_results (.ok "hello") []).confidence = 0 ∧
    dashboard_confidence "CONFIDENCE: ." = 1/2 ∧
    0 ≤ dashboard_confidence "hello" := by
  have h := claim_C3_amended "hello" []
  have h2 := h.2.1 (by decide)
  exact ⟨h2.1, h2.2, (claim_C3_amended "CONFIDENCE: ." []).2.2 "." (by decide) (by decide),
    h.1.1⟩

/-- C5 counterexample: the one-space descriptor `" "` is non-empty and not
a 7-digit string, yet the vessel filter returns the empty fragment rather
than the claimed `LIKE` substring condition. -/
theorem claim_C5_counterexample :
    (" " : String) ≠ "" ∧
    ¬ (pyIsDigits " " = true ∧ (" " : String).length = 7) ∧
    build_vessel_filter (some " ") = "" ∧
    strHasSub (build_vessel_filter (some " ")) "LIKE" = false :=
  ⟨by decide, by decide, by decide, by decide⟩

theorem vessel_guard_eq_false (v : String)
    (h : ¬ (pyIsDigits v = true ∧ v.length = 7)) :
    (pyIsDigits v && (v.length == 7)) = false := by
  by_cases hd : pyIsDigits v = true
  · have h7 : v.length ≠ 7 := fun hl => h ⟨hd, hl⟩
    simp [hd, h7]
  · have hdf : pyIsDigits v = false := by simpa using hd
    simp [hdf]

/-- C5 (corrected).  A descriptor of exactly 7 ASCII digits gives the exact
numeric `e.imo` equality; any other descriptor whose whitespace-strip is
nonempty gives the `LIKE` wildcard on the vessel name; an absent or empty
descriptor — and also a non-empty but whitespace-only descriptor, which the
original claim misclassifies — gives the empty fragment. -/
theorem claim_C5_amended :
    build_vessel_filter none = "" ∧
    build_vessel_filter (some "") = "" ∧
    (∀ v : String, pyIsDigits v = true → v.length = 7 →
      build_vessel_filter (some v) = "AND e.imo = " ++ v) ∧
    (∀ v : String, ¬ (pyIsDigits v = true ∧ v.length = 7) → pyStrip v ≠ "" →
      build_vessel_filter (some v) =
        "AND v.name LIKE \x27%%" ++ v ++ "%%\x27") ∧
    (∀ v : String, ¬ (pyIsDigits v = true ∧ v.length = 7) → pyStrip v = "" →
      build_vessel_filter (some v) = "") := by
  refine ⟨rfl, rfl, ?_, ?_, ?_⟩
  · intro v h1 h2
    have hne : v ≠ "" := by
      rintro rfl
      exact absurd h1 (by decide)
    have hg : (pyIsDigits v && (v.length == 7)) = true := by
      simp [h1, h2]
    simp [build_vessel_filter, hne, hg]
  · intro v h hs
    have hne : v ≠ "" := by
      rintro rfl
      exact hs (by decide)
    simp [build_vessel_filter, hne, vessel_guard_eq_false v h, hs]
  · intro v h hs
    by_cases hne : v = ""
    · subst hne; rfl
    · simp [build_vessel_filter, hne, vessel_guard_eq_false v h, hs]

/-- C5 witness: the three filter shapes at concrete descriptors. -/
theorem claim_C5_witness :
    build_vessel_filter (some "1234567") = "AND e.imo = 1234567" ∧
    build_vessel_filter (some "Maersk") =
      "AND v.name LIKE \x27%%Maersk%%\x27" ∧
    build_vessel_filter (some " ") = "" :=
  ⟨claim_C5_amended.2.2.1 "1234567" (by decide) (by decide),
   claim_C5_amended.2.2.2.1 "Maersk" (by decide) (by decide),
   claim_C5_amended.2.2.2.2 " " (by decide) (by decide)⟩

theorem upperHasQ_eq_false_of_digits (t : String) (h : pyIsDigits t = true) :
    upperHasQ t = false := by
  unfold pyIsDigits at h
  rw [Bool.and_eq_true] at h
  unfold upperHasQ
  rw [List.any_eq_false]
  intro c hc hQ
  have hd : c.isDigit = true := by
    have hall := h.2
    rw [List.all_eq_true] at hall
    exact hall c hc
  rw [Bool.or_eq_true] at hQ
  rcases hQ with hQ | hQ
  · have hcq : c = 'Q' := by simpa using hQ
    subst hcq
    exact absurd hd (by decide)
  · have hcq : c = 'q' := by simpa using hQ
    subst hcq
    exact absurd hd (by decide)

/-- C6 (confirmed).  With a nonempty default quarter substituted for an
absent or empty descriptor, the period filter dispatches exhaustively and
exclusively on three cases of the target token: containing `Q`
case-insensitively (quarter equality against the uppercased token),
exactly 4 digits (year equality — necessarily `Q`-free, so the first two
cases are disjoint outright), and everything else (a `start >=` bound). -/
theorem claim_C6 (period_info : Option String) (default_quarter : String)
    (hdq : default_quarter ≠ "") :
    (upperHasQ (pyOrElse period_info default_quarter) = true →
      build_period_filter period_info default_quarter =
        "AND CONCAT(YEAR(e.start), \x27Q\x27, QUARTER(e.start)) = \x27" ++
          pyUpper (pyOrElse period_info default_quarter) ++ "\x27") ∧
    ((pyOrElse period_info default_quarter).length = 4 ∧
        pyIsDigits (pyOrElse period_info default_quarter) = true →
      build_period_filter period_info default_quarter =
        "AND YEAR(e.start) = " ++ pyOrElse period_info default_quarter) ∧
    (upperHasQ (pyOrElse period_info default_quarter) = false →
      ¬ ((pyOrElse period_info default_quarter).length = 4 ∧
          pyIsDigits (pyOrElse period_info default_quarter) = true) →
      build_period_filter period_info default_quarter =
        "AND e.start >= \x27" ++ pyOrElse period_info default_quarter ++ "\x27") ∧
    ¬ (upperHasQ (pyOrElse period_info default_quarter) = true ∧
        (pyOrElse period_info default_quarter).length = 4 ∧
        pyIsDigits (pyOrElse period_info default_quarter) = true) ∧
    (upperHasQ (pyOrElse period_info default_quarter) = true ∨
      ((pyOrElse period_info default_quarter).length = 4 ∧
        pyIsDigits (pyOrElse period_info default_quarter) = true) ∨
      (upperHasQ (pyOrElse period_info default_quarter) = false ∧
        ¬ ((pyOrElse period_info default_quarter).length = 4 ∧
            pyIsDigits (pyOrElse period_info default_quarter) = true))) := by
  set t := pyOrElse period_info default_quarter with htdef
  have htne : t ≠ "" := by
    rw [htdef]
    unfold pyOrElse
    rcases period_info with _ | s
    · exact hdq
    · by_cases hs : s = ""
      · simpa [hs] using hdq
      · simp only [pyOrElse, hs, if_false]
        exact hs
  refine ⟨?_, ?_, ?_, ?_, ?_⟩
  · intro hQ
    simp [build_period_filter, ← htdef, htne, hQ]
  · rintro ⟨h4, hd⟩
    have hQf := upperHasQ_eq_false_of_digits t hd
    simp [build_period_filter, ← htdef, htne, hQf, h4, hd]
  · intro hQf hn
    have hg : ((t.length == 4) && pyIsDigits t) = false := by
      by_cases h4 : t.length = 4
      · have hdF : pyIsDigits t = false := by
          rcases Bool.eq_false_or_eq_true (pyIsDigits t) with hh | hh
          · exact absurd ⟨h4, hh⟩ hn
          · exact hh
        simp [hdF]
      · simp [h4]
    simp [build_period_filter, ← htdef, htne, hQf, hg]
  · rintro ⟨hQ, _, hd⟩
    rw [upperHasQ_eq_false_of_digits t hd] at hQ
    cases hQ
  · by_cases hQ : upperHasQ t = true
    · exact Or.inl hQ
    · have hQf : upperHasQ t = false := by simpa using hQ
      by_cases h4 : t.length = 4 ∧ pyIsDigits t = true
      · exact Or.inr (Or.inl h4)
      · exact Or.inr (Or.inr ⟨hQf, h4⟩)

/-- C6 witness: the three emitted shapes at concrete descriptors (quarter
default, bare year, date string). -/
theorem claim_C6_witness :
    build_period_filter none "2025Q1" =
      "AND CONCAT(YEAR(e.start), \x27Q\x27, QUARTER(e.start)) = \x27" ++
        pyUpper (pyOrElse none "2025Q1") ++ "\x27" ∧
    build_period_filter (some "2024") "2025Q1" =
      "AND YEAR(e.start) = " ++ pyOrElse (some "2024") "2025Q1" ∧
    build_period_filter (some "2024-01-01") "2025Q1" =
      "AND e.start >= \x27" ++ pyOrElse (some "2024-01-01") "2025Q1" ++ "\x27" :=
  ⟨(claim_C6 none "2025Q1" (by decide)).1 (by decide),
   (claim_C6 (some "2024") "2025Q1" (by decide)).2.1 ⟨by decide, by decide⟩,
   (claim_C6 (some "2024-01-01") "2025Q1" (by decide)).2.2.1 (by decide) (by decide)⟩

/-- C7 (confirmed).  When the analysis completion call raises,
`analyze_validation_results` returns (for every error message and every
result-row list) a verdict with `supports_claim = false`,
`confidence = 0.0`, the error description inside `limitations`, and
`data_points` equal to the number of result rows; being a total function of
the collaborator outcome, it never propagates the exception. -/
theorem claim_C7 (e : String) (query_results : List Row) :
    (analyze_validation_results (.error e) query_results).supports_claim = false ∧
    (analyze_validation_results (.error e) query_results).confidence = 0 ∧
    strHasSub (analyze_validation_results (.error e) query_results).limitations e = true ∧
    (analyze_validation_results (.error e) query_results).data_points =
      query_results.length := by
  refine ⟨rfl, rfl, ?_, rfl⟩
  show strHasSub ("Analysis error: " ++ e) e = true
  exact strHasSub_append_self _ _

/-- C8 (confirmed).  Every result dictionary `_validate_single_claim`
returns with status `failed` carries `confidence = 0.0` and
`supports_claim = false`, whatever the query executor, completion call and
persistence store did. -/
theorem claim_C8 (claim : ValidationClaim) (rid : ℤ)
    (execResult : Except String (List Row)) (completion : Except String String)
    (storeResult : Except String Unit)
    (h : (validate_single_claim claim rid execResult completion storeResult).status =
      "failed") :
    (validate_single_claim claim rid execResult completion storeResult).confidence = 0 ∧
    (validate_single_claim claim rid execResult completion storeResult).supports_claim =
      false := by
  rcases execResult with e | rows
  · exact ⟨rfl, rfl⟩
  · rcases storeResult with e | u
    · exact ⟨rfl, rfl⟩
    · exact absurd h (by simp [validate_single_claim])

/-- C8 witness: a raising query executor produces a failed result with zero
confidence and no support. -/
theorem claim_C8_witness :
    (validate_single_claim ⟨"t", "vessel_movement", none, none, none, none, none, 0⟩ 7
        (.error "connection refused") (.ok "") (.ok ())).status = "failed" ∧
    (validate_single_claim ⟨"t", "vessel_movement", none, none, none, none, none, 0⟩ 7
        (.error "connection refused") (.ok "") (.ok ())).confidence = 0 ∧
    (validate_single_claim ⟨"t", "vessel_movement", none, none, none, none, none, 0⟩ 7
        (.error "connection refused") (.ok "") (.ok ())).supports_claim = false :=
  ⟨rfl,
   (claim_C8 ⟨"t", "vessel_movement", none, none, none, none, none, 0⟩ 7
     (.error "connection refused") (.ok "") (.ok ()) rfl).1,
   (claim_C8 ⟨"t", "vessel_movement", none, none, none, none, none, 0⟩ 7
     (.error "connection refused") (.ok "") (.ok ()) rfl).2⟩

/-- C9 (confirmed).  `generate_validation_query` dispatches each of the
five recognized claim types to its template — the emissions template
referencing the `v_MRV` table, the transit template building the
self-joined `transit_calculations` derived relation — and every
unrecognized type deterministically produces the vessel-movement template's
query (the total dispatch function never raises). -/
theorem claim_C9 (claim : ValidationClaim) (quarter : String) :
    (claim.claim_type = "fuel_consumption" →
      generate_validation_query claim quarter = fuel_consumption_query claim quarter ∧
      strHasSub (generate_validation_query claim quarter) "v_MRV" = true) ∧
    (claim.claim_type = "transit_time" →
      generate_validation_query claim quarter = transit_time_query claim quarter ∧
      strHasSub (generate_validation_query claim quarter)
        "JOIN escalas e2 ON e1.imo = e2.imo" = true ∧
      strHasSub (generate_validation_query claim quarter)
        "WITH transit_calculations AS (" = true) ∧
    (claim.claim_type = "route_pattern" →
      generate_validation_query claim quarter = route_pattern_query claim quarter) ∧
    (claim.claim_type = "port_frequency" →
      generate_validation_query claim quarter = port_frequency_query claim quarter) ∧
    (claim.claim_type = "vessel_movement" →
      generate_validation_query claim quarter = vessel_movement_query claim quarter) ∧
    (claim.claim_type ∉ ["fuel_consumption", "transit_time", "route_pattern",
        "port_frequency", "vessel_movement"] →
      generate_validation_query claim quarter = vessel_movement_query claim quarter) := by
  refine ⟨?_, ?_, ?_, ?_, ?_, ?_⟩
  · intro h
    have hq : generate_validation_query claim quarter =
        fuel_consumption_query claim quarter := by
      unfold generate_validation_query
      rw [h, if_pos rfl]
    refine ⟨hq, ?_⟩
    rw [hq]
    simp only [fuel_consumption_query]
    iterate 6 apply strHasSub_append_left
    decide
  · intro h
    have hq : generate_validation_query claim quarter =
        transit_time_query claim quarter := by
      unfold generate_validation_query
      rw [h, if_neg (by decide), if_pos rfl]
    refine ⟨hq, ?_, ?_⟩
    · rw [hq]
      simp only [transit_time_query]
      iterate 6 apply strHasSub_append_left
      decide
    · rw [hq]
      simp only [transit_time_query]
      iterate 6 apply strHasSub_append_left
      decide
  · intro h
    unfold generate_validation_query
    rw [h, if_neg (by decide), if_neg (by decide), if_pos rfl]
  · intro h
    unfold generate_validation_query
    rw [h, if_neg (by decide), if_neg (by decide), if_neg (by decide), if_pos rfl]
  · intro h
    unfold generate_validation_query
    rw [h, if_neg (by decide), if_neg (by decide), if_neg (by decide),
      if_neg (by decide), if_pos rfl]
  · intro h
    have h1 : claim.claim_type ≠ "fuel_consumption" :=
      fun hh => h (by rw [hh]; decide)
    have h2 : claim.claim_type ≠ "transit_time" :=
      fun hh => h (by rw [hh]; decide)
    have h3 : claim.claim_type ≠ "route_pattern" :=
      fun hh => h (by rw [hh]; decide)
    have h4 : claim.claim_type ≠ "port_frequency" :=
      fun hh => h (by rw [hh]; decide)
    have h5 : claim.claim_type ≠ "vessel_movement" :=
      fun hh => h (by rw [hh]; decide)
    unfold generate_validation_query
    rw [if_neg h1, if_neg h2, if_neg h3, if_neg h4, if_neg h5]
    rfl

/-- C9 witness: concrete dispatches for the emissions, transit and an
unrecognized (`general`) claim type. -/
theorem claim_C9_witness :
    generate_validation_query
        ⟨"t", "fuel_consumption", none, none, none, none, none, 0⟩ "2025Q1" =
      fuel_consumption_query
        ⟨"t", "fuel_consumption", none, none, none, none, none, 0⟩ "2025Q1" ∧
    strHasSub (generate_validation_query
        ⟨"t", "fuel_consumption", none, none, none, none, none, 0⟩ "2025Q1")
      "v_MRV" = true ∧
    generate_validation_query
        ⟨"t", "transit_time", none, none, none, none, none, 0⟩ "2025Q1" =
      transit_time_query
        ⟨"t", "transit_time", none, none, none, none, none, 0⟩ "2025Q1" ∧
    generate_validation_query
        ⟨"t", "general", none, none, none, none, none, 0⟩ "2025Q1" =
      vessel_movement_query
        ⟨"t", "general", none, none, none, none, none, 0⟩ "2025Q1" :=
  ⟨((claim_C9 ⟨"t", "fuel_consumption", none, none, none, none, none, 0⟩ "2025Q1").1
      rfl).1,
   ((claim_C9 ⟨"t", "fuel_consumption", none, none, none, none, none, 0⟩ "2025Q1").1
      rfl).2,
   ((claim_C9 ⟨"t", "transit_time", none, none, none, none, none, 0⟩ "2025Q1").2.1
      rfl).1,
   (claim_C9 ⟨"t", "general", none, none, none, none, none, 0⟩ "2025Q1").2.2.2.2.2
      (by decide)⟩

/-- C10 (confirmed, implicit).  When the query executes but the analysis
completion call raises, `_validate_single_claim` returns a result with
status `validated` (not `failed`), confidence 0 and `supports_claim`
false; the record is still persisted through `store_validation_claim`
(with `confidence_score` 0 and the row count); and the aggregation
includes it with weight `min(data_points * 0.1 + 1.0, 3.0) ≥ 1`, so its
zero confidence weakly lowers the overall confidence of any result list
with nonnegative validated confidences instead of being excluded the way
an execution-failed claim is. -/
theorem claim_C10 (claim : ValidationClaim) (rid : ℤ) (rows : List Row)
    (errmsg : String) (l : List VResult)
    (hnn : ∀ x ∈ l, x.status = "validated" → 0 ≤ x.confidence) :
    (validate_single_claim claim rid (.ok rows) (.error errmsg) (.ok ())).status =
      "validated" ∧
    (validate_single_claim claim rid (.ok rows) (.error errmsg) (.ok ())).confidence =
      0 ∧
    (validate_single_claim claim rid (.ok rows) (.error errmsg)
      (.ok ())).supports_claim = false ∧
    (validate_single_claim claim rid (.ok rows) (.error errmsg) (.ok ())).stored =
      some ⟨rid, claim.claim_text, claim.claim_type, claim.vessel.getD "",
        claim.route.getD "", claim.period.getD "",
        generate_validation_query claim (pyOrElse claim.period "2025Q1"), 0, false,
        rows.length, ""⟩ ∧
    1 ≤ claimWeight (toVResult
      (validate_single_claim claim rid (.ok rows) (.error errmsg) (.ok ()))) ∧
    calculate_overall_confidence (l ++ [toVResult
        (validate_single_claim claim rid (.ok rows) (.error errmsg) (.ok ()))]) ≤
      calculate_overall_confidence l := by
  have hv : toVResult (validate_single_claim claim rid (.ok rows) (.error errmsg)
      (.ok ())) = ⟨"validated", 0, false, rows.length⟩ := rfl
  refine ⟨rfl, rfl, rfl, rfl, ?_, ?_⟩
  · rw [hv]
    exact one_le_claimWeight _
  · rw [hv]
    have hrb : (("validated" : String) == "validated") = true := by decide
    have hWr : weightedConfSum [(⟨"validated", 0, false, rows.length⟩ : VResult)] = 0 := by
      simp [weightedConfSum, List.filter_cons, hrb]
    have hTr : totalWeightSum [(⟨"validated", 0, false, rows.length⟩ : VResult)] =
        claimWeight ⟨"validated", 0, false, rows.length⟩ := by
      simp [totalWeightSum, List.filter_cons, hrb]
    have hw1 : (1 : ℚ) ≤ claimWeight ⟨"validated", 0, false, rows.length⟩ :=
      one_le_claimWeight _
    have hne : (l ++ [(⟨"validated", 0, false, rows.length⟩ : VResult)]).isEmpty =
        false := by
      simp [List.isEmpty_iff]
    rw [calculate_overall_confidence_eq, calculate_overall_confidence_eq, hne,
      weightedConfSum_append, totalWeightSum_append, hWr, hTr]
    simp only [add_zero, Bool.false_eq_true, if_false]
    by_cases hl : l = []
    · subst hl
      have h0 : weightedConfSum ([] : List VResult) = 0 := rfl
      have t0 : totalWeightSum ([] : List VResult) = 0 := rfl
      rw [h0, t0]
      have hcw : (0 : ℚ) < 0 + claimWeight ⟨"validated", 0, false, rows.length⟩ := by
        linarith
      rw [if_pos hcw]
      simp
    · have hlE : l.isEmpty = false := by simpa [List.isEmpty_iff] using hl
      rw [hlE]
      simp only [Bool.false_eq_true, if_false]
      by_cases hT : totalWeightSum l > 0
      · have hT2 : totalWeightSum l +
            claimWeight ⟨"validated", 0, false, rows.length⟩ > 0 := by linarith
        rw [if_pos hT, if_pos hT2]
        have hS := weightedConfSum_nonneg l hnn
        refine min_le_min ?_ le_rfl
        rw [div_le_div_iff₀ hT2 hT]
        nlinarith
      · have hT0 : totalWeightSum l = 0 :=
          le_antisymm (not_lt.mp hT) (totalWeightSum_nonneg l)
        have hS0 := weightedConfSum_eq_zero_of_totalWeightSum_eq_zero l hT0
        rw [hT0, hS0]
        have hcw : (0 : ℚ) < 0 + claimWeight ⟨"validated", 0, false, rows.length⟩ := by
          linarith
        rw [if_pos hcw, if_neg (lt_irrefl 0)]
        simp

/-- C10 witness: an analysis failure on an executed query still yields a
validated, persisted, zero-confidence result that cannot raise the
aggregate. -/
theorem claim_C10_witness :
    (validate_single_claim ⟨"t", "vessel_movement", none, none, none, none, none, 0⟩ 1
        (.ok []) (.error "LLM down") (.ok ())).status = "validated" ∧
    (validate_single_claim ⟨"t", "vessel_movement", none, none, none, none, none, 0⟩ 1
        (.ok []) (.error "LLM down") (.ok ())).confidence = 0 ∧
    calculate_overall_confidence ([] ++ [toVResult
        (validate_single_claim ⟨"t", "vessel_movement", none, none, none, none, none, 0⟩ 1
          (.ok []) (.error "LLM down") (.ok ()))]) ≤
      calculate_overall_confidence [] := by
  have h := claim_C10 ⟨"t", "vessel_movement", none, none, none, none, none, 0⟩ 1
    [] "LLM down" [] (by simp)
  exact ⟨h.1, h.2.1, h.2.2.2.2.2⟩

/-- C4 counterexample: at the descriptor `"Rotterdam -> Singapore"` the
transit route filter emits a strict directional pair of atomic conditions
— it contains no `OR`, so it is not the claimed conjunction of two
disjunctions — while the general route filter does emit disjunctions; and
even after renaming `e.portname`/`e.next_port` to
`origin_port`/`destination_port` and normalizing whitespace the two
fragments differ. -/
theorem claim_C4_counterexample :
    strHasSub (build_route_filter_transit (some "Rotterdam -> Singapore")) "OR" =
      false ∧
    strHasSub (build_route_filter (some "Rotterdam -> Singapore")) "OR" = true ∧
    normalizeWs (build_route_filter_transit (some "Rotterdam -> Singapore")) ≠
      normalizeWs (renameRouteCols (build_route_filter (some "Rotterdam -> Singapore"))) :=
  ⟨by decide, by decide, by decide⟩

/-- C4 (corrected).  The transit-time route filter does not reproduce the
general filter's logic under the column renaming: on an arrow descriptor it
emits the strict directional conjunction `origin_port LIKE origin AND
destination_port LIKE destination` (no disjunctions), the general filter
emits a conjunction of two two-way disjunctions, and the transit variant
has no region-pair sub-case at all — every non-arrow descriptor (hyphenated
region pairs included) falls through to a plain two-column disjunction on
the whole token. -/
theorem claim_C4_amended :
    (∀ s o d : String,
      strHasSub s "->" = true →
      ((pySplitArrow s).map pyStrip)[0]? = some o →
      ((pySplitArrow s).map pyStrip)[1]? = some d →
      build_route_filter_transit (some s) =
        "\n                AND origin_port LIKE \x27%%" ++ o ++
        "%%\x27\n                AND destination_port LIKE \x27%%" ++ d ++
        "%%\x27\n                ") ∧
    (∀ s o d : String,
      s ≠ "" →
      strHasSub (pyStrip s) "->" = true →
      ((pySplitArrow (pyStrip s)).map pyStrip)[0]? = some o →
      ((pySplitArrow (pyStrip s)).map pyStrip)[1]? = some d →
      build_route_filter (some s) =
        "\n                AND (e.portname LIKE \x27%%" ++ o ++
        "%%\x27 OR e.portname LIKE \x27%%" ++ d ++
        "%%\x27)\n                AND (e.next_port LIKE \x27%%" ++ o ++
        "%%\x27 OR e.next_port LIKE \x27%%" ++ d ++
        "%%\x27)\n                ") ∧
    (∀ s : String, s ≠ "" → strHasSub s "->" = false →
      build_route_filter_transit (some s) =
        "AND (origin_port LIKE \x27%%" ++ s ++
        "%%\x27 OR destination_port LIKE \x27%%" ++ s ++ "%%\x27)") := by
  refine ⟨?_, ?_, ?_⟩
  · intro s o d h h0 h1
    have hne : s ≠ "" := by
      rintro rfl
      exact absurd h (by decide)
    rcases hL : (pySplitArrow s).map pyStrip with _ | ⟨a, t⟩
    · rw [hL] at h0
      simp at h0
    · rcases t with _ | ⟨b, t2⟩
      · rw [hL] at h1
        simp at h1
      · rw [hL] at h0 h1
        simp only [List.getElem?_cons_zero, List.getElem?_cons_succ,
          Option.some.injEq] at h0 h1
        subst h0
        subst h1
        simp [build_route_filter_transit, hne, h, hL]
  · intro s o d hne h h0 h1
    rcases hL : (pySplitArrow (pyStrip s)).map pyStrip with _ | ⟨a, t⟩
    · rw [hL] at h0
      simp at h0
    · rcases t with _ | ⟨b, t2⟩
      · rw [hL] at h1
        simp at h1
      · rw [hL] at h0 h1
        simp only [List.getElem?_cons_zero, List.getElem?_cons_succ,
          Option.some.injEq] at h0 h1
        subst h0
        subst h1
        simp [build_route_filter, hne, h, hL]
  · intro s hne h
    simp [build_route_filter_transit, hne, h]

/-- C4 witness: the two arrow-case shapes at a concrete origin/destination
pair, and the transit fallback on a hyphenated region pair. -/
theorem claim_C4_witness :
    build_route_filter_transit (some "Rotterdam -> Singapore") =
      "\n                AND origin_port LIKE \x27%%Rotterdam%%\x27\n                AND destination_port LIKE \x27%%Singapore%%\x27\n                " ∧
    build_route_filter (some "Rotterdam -> Singapore") =
      "\n                AND (e.portname LIKE \x27%%Rotterdam%%\x27 OR e.portname LIKE \x27%%Singapore%%\x27)\n                AND (e.next_port LIKE \x27%%Rotterdam%%\x27 OR e.next_port LIKE \x27%%Singapore%%\x27)\n                " ∧
    build_route_filter_transit (some "Asia-Europe") =
      "AND (origin_port LIKE \x27%%Asia-Europe%%\x27 OR destination_port LIKE \x27%%Asia-Europe%%\x27)" :=
  ⟨claim_C4_amended.1 "Rotterdam -> Singapore" "Rotterdam" "Singapore"
      (by decide) (by decide) (by decide),
   claim_C4_amended.2.1 "Rotterdam -> Singapore" "Rotterdam" "Singapore"
      (by decide) (by decide) (by decide) (by decide),
   claim_C4_amended.2.2 "Asia-Europe" (by decide) (by decide)⟩
